import Mathlib

/-!
Verification of the offline-resilient research submission pipeline and the
trust/compliance view-model of the francophone-lex web client.

The embedding follows `apps/web/src/components/research/research-view.tsx`
(submission orchestrator `onSubmit`, outbox item processing
`processOutboxItem`, manual retry `handleOutboxRetry`, the allowlist and
compliance derivations) and the export module (`signExport`,
`exportIracToPdf`, `exportIracToDocx`).  JavaScript strings are modelled by
Lean `String`; string-inspection primitives that the runtime provides
(`trim`, the `URL` constructor, `Date` parsing) are re-implemented over
`List Char` so that every definition evaluates inside the kernel.
Stateful React code is embedded as pure state-transition functions that
also return the list of observable effects (network calls, toasts,
telemetry events) in program order; the resolution of an awaited network
call is passed in as an explicit `RemoteOutcome` argument.
-/

/-- Whitespace test used by the modelled JavaScript `String.prototype.trim`. -/
def isWS (c : Char) : Bool := c.isWhitespace

/-- Modelled from the spec: JavaScript `String.prototype.trim` (runtime
builtin, external to the repository) — removes leading and trailing
whitespace. -/
def jsTrim (s : String) : String :=
  String.mk (((s.data.dropWhile isWS).reverse.dropWhile isWS).reverse)

/-- An item of the outbox queue (`OutboxItem` of the `use-outbox` hook):
the enqueued research request plus its generated id. -/
structure OutboxItem where
  id : Nat
  question : String
  context : String
  confidentialMode : Bool
  agentCode : String
  agentLabel : String
  agentSettings : Option String
deriving Repr, DecidableEq

/-- The id-less request record passed to `enqueue` by the orchestrator. -/
structure OutboxRequest where
  question : String
  context : String
  confidentialMode : Bool
  agentCode : String
  agentLabel : String
  agentSettings : Option String
deriving Repr, DecidableEq

/-- The agent run response, reduced to the fields the submission pipeline
itself reads (`runId` for telemetry, the agent code); the IRAC payload and
trust panel are consumed by separate pure derivations modelled below. -/
structure AgentRunResponse where
  runId : String
  agentCode : String
deriving Repr, DecidableEq

/-- Resolution of the awaited remote agent call: success carries the
response; failure carries `some message` when the thrown value is an
`Error` (whose `.message` is read), `none` for a non-`Error` throw. -/
inductive RemoteOutcome where
  | success (data : AgentRunResponse)
  | failure (errorMessage : Option String)
deriving Repr, DecidableEq

/-- Observable side effects of the submission pipeline, in program order. -/
inductive Effect where
  | toastError (msg : String)
  | toastInfo (msg : String)
  | toastSuccess (msg : String)
  | telemetry (event : String)
  | networkCall (question context : String) (confidentialMode : Bool) (agentCode : String)
  | togglePlanDrawer
  | runSuccessEvent
deriving Repr, DecidableEq

/-- Whether an effect is a telemetry emission (`sendTelemetryEvent`). -/
def Effect.isTelemetry : Effect → Bool
  | Effect.telemetry _ => true
  | _ => false

/-- Whether an effect is a remote agent call (`mutation.mutateAsync`). -/
def Effect.isNetworkCall : Effect → Bool
  | Effect.networkCall _ _ _ _ => true
  | _ => false

/-- Whether an effect is an error notification (`toast.error`). -/
def Effect.isToastError : Effect → Bool
  | Effect.toastError _ => true
  | _ => false

/-- Localized interface strings the component receives via props. -/
structure UiMessages where
  validationMessage : String
  outboxQueued : String
  outboxStillOffline : String
  successMessage : String
  outboxSent : Option String
deriving Repr, DecidableEq

/-- The component state read and written by the submission pipeline. -/
structure ViewState where
  question : String
  context : String
  confidentialMode : Bool
  agentCode : String
  selectedAgentLabel : Option String
  online : Bool
  outbox : List OutboxItem
  nextId : Nat
  latestRun : Option AgentRunResponse
  planDrawerOpen : Bool
deriving Repr, DecidableEq

/-- Modelled from the spec: the Outbox store's `enqueue` (the `use-outbox`
hook is not under `src/`) — assigns a fresh unique id, appends the request
to the end of the ordered sequence. -/
def Outbox.enqueue (items : List OutboxItem) (nextId : Nat) (req : OutboxRequest) :
    List OutboxItem × Nat :=
  (items ++ [{ id := nextId, question := req.question, context := req.context,
               confidentialMode := req.confidentialMode, agentCode := req.agentCode,
               agentLabel := req.agentLabel, agentSettings := req.agentSettings }],
   nextId + 1)

/-- Modelled from the spec: the Outbox store's `remove` (the `use-outbox`
hook is not under `src/`) — removes the item with that id if present,
no-op when absent. -/
def Outbox.remove (items : List OutboxItem) (id : Nat) : List OutboxItem :=
  items.filter (fun item => item.id ≠ id)

/-- The generic fallback error message literal of the source
(`'Agent indisponible'`). -/
def agentUnavailableFallback : String := "Agent indisponible"

/-- The request record both enqueue sites of `onSubmit` build:
`{question, context, confidentialMode, agentCode, agentLabel:
selectedAgent?.label ?? agentCode, agentSettings: null}`. -/
def submissionRequest (st : ViewState) : OutboxRequest :=
  { question := st.question, context := st.context,
    confidentialMode := st.confidentialMode, agentCode := st.agentCode,
    agentLabel := st.selectedAgentLabel.getD st.agentCode, agentSettings := none }

/-- The submission orchestrator `onSubmit` of `research-view.tsx`:
validates the question, branches on connectivity, and on the online path
awaits the remote call whose resolution is the `outcome` argument.
Returns the updated component state and the effects in program order. -/
def onSubmit (msgs : UiMessages) (st : ViewState) (outcome : RemoteOutcome) :
    ViewState × List Effect :=
  if jsTrim st.question = "" then
    (st, [Effect.toastError msgs.validationMessage])
  else if st.online = false then
    let enq := Outbox.enqueue st.outbox st.nextId (submissionRequest st)
    ({ st with outbox := enq.1, nextId := enq.2, question := "", context := "" },
      [Effect.toastInfo msgs.outboxQueued] ++
        (if st.confidentialMode then [] else [Effect.telemetry "outbox_enqueued"]))
  else
    let pre := if st.confidentialMode then [] else [Effect.telemetry "run_submitted"]
    let callEff := Effect.networkCall st.question st.context st.confidentialMode st.agentCode
    match outcome with
    | RemoteOutcome.success data =>
        ({ st with latestRun := some data, planDrawerOpen := true },
          pre ++ [callEff, Effect.togglePlanDrawer, Effect.toastSuccess msgs.successMessage,
              Effect.runSuccessEvent] ++
            (if st.confidentialMode then [] else [Effect.telemetry "run_completed"]))
    | RemoteOutcome.failure err =>
        let message := err.getD agentUnavailableFallback
        let enq := Outbox.enqueue st.outbox st.nextId (submissionRequest st)
        ({ st with outbox := enq.1, nextId := enq.2 },
          pre ++ [callEff, Effect.toastError message] ++
            (if st.confidentialMode then [] else [Effect.telemetry "run_failed"]) ++
            [Effect.toastInfo msgs.outboxQueued] ++
            (if st.confidentialMode then [] else [Effect.telemetry "outbox_enqueued"]))

/-- Origin of an outbox send attempt: explicit user retry or automatic flush. -/
inductive RetrySource where
  | manual
  | auto
deriving Repr, DecidableEq

/-- `processOutboxItem` of `research-view.tsx`: the sender used both for
manual retries and for the automatic flush.  Returns the updated state,
the effects in program order, and the boolean result the source returns. -/
def processOutboxItem (msgs : UiMessages) (st : ViewState) (item : OutboxItem)
    (source : RetrySource) (outcome : RemoteOutcome) :
    ViewState × List Effect × Bool :=
  if item.confidentialMode = true ∧ source = RetrySource.auto then
    (st, ([], false))
  else
    let callEff := Effect.networkCall item.question item.context item.confidentialMode item.agentCode
    match outcome with
    | RemoteOutcome.success data =>
        let successLabel :=
          match source with
          | RetrySource.manual => msgs.successMessage
          | RetrySource.auto => msgs.outboxSent.getD msgs.successMessage
        let toggled := source = RetrySource.manual ∨ st.planDrawerOpen = false
        let toggleEffs := if toggled then [Effect.togglePlanDrawer] else []
        let telemetryEffs :=
          if st.confidentialMode = false ∧ item.confidentialMode = false then
            [Effect.telemetry
              (match source with
                | RetrySource.manual => "outbox_retry"
                | RetrySource.auto => "outbox_auto_flush")]
          else []
        ({ st with latestRun := some data,
                   planDrawerOpen := if toggled then true else st.planDrawerOpen },
          (callEff :: toggleEffs ++
            [Effect.toastSuccess successLabel, Effect.runSuccessEvent] ++ telemetryEffs, true))
    | RemoteOutcome.failure err =>
        let message := err.getD agentUnavailableFallback
        let telemetryEffs :=
          if st.confidentialMode = false ∧ item.confidentialMode = false then
            [Effect.telemetry
              (match source with
                | RetrySource.manual => "outbox_retry"
                | RetrySource.auto => "outbox_auto_flush")]
          else []
        (st, (callEff :: Effect.toastError message :: telemetryEffs, false))

/-- `handleOutboxRetry` of `research-view.tsx`: manual retry of a single
outbox item; removes the item from the queue only on success. -/
def handleOutboxRetry (msgs : UiMessages) (st : ViewState) (item : OutboxItem)
    (outcome : RemoteOutcome) : ViewState × List Effect :=
  if st.online = false then
    (st, [Effect.toastInfo msgs.outboxStillOffline])
  else
    let r := processOutboxItem msgs st item RetrySource.manual outcome
    if r.2.2 = true then
      ({ r.1 with outbox := Outbox.remove r.1.outbox item.id }, r.2.1)
    else
      (r.1, r.2.1)

/-- Modelled from the spec: the Outbox store's `flush` (the `use-outbox`
hook is not under `src/`) driven by the auto sender — iterates the queued
items in insertion order, sends each with source `auto`, removes an item
on success and keeps it (continuing with the rest) on failure. -/
def flushAuto (msgs : UiMessages) (st : ViewState)
    (outcomes : OutboxItem → RemoteOutcome) : ViewState × List Effect :=
  st.outbox.foldl
    (fun acc item =>
      let r := processOutboxItem msgs acc.1 item RetrySource.auto (outcomes item)
      let st' := if r.2.2 = true then
          { r.1 with outbox := Outbox.remove r.1.outbox item.id }
        else r.1
      (st', acc.2 ++ r.2.1))
    (st, ([] : List Effect))

/-- Splits a character list on every occurrence of the separator character
(the shape of JavaScript `String.prototype.split` with a one-character
separator). -/
def splitOnChar (c : Char) : List Char → List (List Char)
  | [] => [[]]
  | ch :: rest =>
    match splitOnChar c rest with
    | [] => [[]]
    | cur :: acc => if ch = c then [] :: cur :: acc else (ch :: cur) :: acc

/-- Splits a character list at the first occurrence of the literal
`://`, returning the parts before and after it, or `none` when the
sequence does not occur. -/
def splitAtSchemeSep : List Char → Option (List Char × List Char)
  | ':' :: '/' :: '/' :: rest => some ([], rest)
  | c :: rest => (splitAtSchemeSep rest).map (fun pr => (c :: pr.1, pr.2))
  | [] => none

/-- Modelled from the spec: hostname extraction through the browser `URL`
constructor (runtime builtin, external to the repository).  A URL is
well-formed when it has a nonempty scheme, the `://` separator and a
nonempty host; its hostname is the authority part up to the first `/`,
`?`, `#`, with any `:port` suffix removed.  Anything else throws in the
runtime, modelled as `none`. -/
def hostnameOf (url : String) : Option String :=
  match splitAtSchemeSep url.data with
  | none => none
  | some (scheme, rest) =>
      if scheme = [] then none
      else
        let authority := rest.takeWhile (fun ch => !(ch = '/' || ch = '?' || ch = '#'))
        let host := authority.takeWhile (fun ch => !(ch = ':'))
        if host = [] then none else some (String.mk host)

/-- The `try { return new URL(url).hostname } catch { return url }` mapping
of `fallbackViolationHosts`. -/
def hostOrRaw (url : String) : String := (hostnameOf url).getD url

/-- Modelled from the spec: `Array.from(new Set(hosts))` (runtime builtin,
external) — removes duplicates keeping the first occurrence of each value. -/
def dedupFirst : List String → List String
  | [] => []
  | x :: xs => x :: (dedupFirst xs).filter (fun y => decide (y ≠ x))

/-- `fallbackViolationHosts` of `research-view.tsx`: hostnames (raw strings
for malformed URLs) of the verification allowlist violations, falsy values
dropped, deduplicated. -/
def fallbackViolationHosts (allowlistViolations : List String) : List String :=
  if allowlistViolations = [] then []
  else
    dedupFirst (((allowlistViolations.map hostOrRaw).filter (fun v => decide (v ≠ ""))))

/-- One entry of `trustPanel.citationSummary.nonAllowlisted`. -/
structure NonAllowlistedCitation where
  title : Option String
  url : String
deriving Repr, DecidableEq

/-- The slice of `trustPanel.citationSummary` the allowlist derivations read. -/
structure CitationSummary where
  nonAllowlisted : List NonAllowlistedCitation
deriving Repr, DecidableEq

/-- `allowlistClean` of `research-view.tsx`: prefers the citation summary,
falling back to the flat violations list. -/
def allowlistClean (summary : Option CitationSummary) (allowlistViolations : List String) :
    Bool :=
  match summary with
  | some s => s.nonAllowlisted.length == 0
  | none => allowlistViolations.length == 0

/-- `allowlistDetails` of `research-view.tsx`: the displayed detail lines
for non-allowlisted citations, falling back to the violation hostnames. -/
def allowlistDetails (summary : Option CitationSummary) (allowlistViolations : List String) :
    List String :=
  match summary with
  | some s =>
      s.nonAllowlisted.map (fun item =>
        match item.title with
        | some t => if t = "" then item.url else t ++ " — " ++ item.url
        | none => item.url)
  | none => fallbackViolationHosts allowlistViolations

/-- The trust-panel message strings used by the compliance derivations
(`messages.research.trust`); `{reason}`, `{detail}` and `{version}` are
template placeholders substituted with `String.replace`. -/
structure TrustMessages where
  complianceFria : String
  complianceFriaFallback : String
  complianceCepej : String
  complianceCepejFallback : String
  complianceConsentPending : String
  complianceCoePending : String

/-- The compliance message table (`messages.research.compliance`):
the CEPEJ violation-code-to-display-text lookup, `none` for unknown codes. -/
structure ComplianceMessages where
  cepejViolationLabel : String → Option String

/-- `trustCompliance.consent`. -/
structure ConsentStatus where
  requirementVersion : Option String
  accepted : Bool
deriving Repr, DecidableEq

/-- `trustCompliance.councilOfEurope`; `requirementVersion` is
`requirement?.version` (`none` when the requirement object is absent). -/
structure CoeStatus where
  requirementVersion : Option String
  acknowledged : Bool
deriving Repr, DecidableEq

/-- `trustPanel.compliance`, as read by the compliance derivations. -/
structure TrustCompliance where
  friaRequired : Bool
  friaValidated : Bool
  friaReasons : List String
  cepejPassed : Bool
  cepejViolations : List String
  consent : ConsentStatus
  councilOfEurope : CoeStatus

/-- The FRIA entry of `complianceIssues`: required-but-not-validated,
using the first listed reason or the fallback message. -/
def friaIssueEntries (tm : TrustMessages) (tc : TrustCompliance) : List String :=
  if tc.friaRequired && !tc.friaValidated then
    [tm.complianceFria.replace "{reason}" (tc.friaReasons.headD tm.complianceFriaFallback)]
  else []

/-- The CEPEJ entry of `complianceIssues`: not-passed, joining the
translated violation codes with a bullet, or the fallback. -/
def cepejIssueEntries (tm : TrustMessages) (cm : ComplianceMessages)
    (tc : TrustCompliance) : List String :=
  if !tc.cepejPassed then
    let detail :=
      if tc.cepejViolations.length != 0 then
        String.intercalate " • "
          (tc.cepejViolations.map
            (fun code => (cm.cepejViolationLabel code).getD tm.complianceCepejFallback))
      else tm.complianceCepejFallback
    [tm.complianceCepej.replace "{detail}" detail]
  else []

/-- The consent entry of `complianceIssues`: requirement present but not
accepted, parameterized by the requirement's version. -/
def consentIssueEntries (tm : TrustMessages) (tc : TrustCompliance) : List String :=
  match tc.consent.requirementVersion with
  | some version => if !tc.consent.accepted then
      [tm.complianceConsentPending.replace "{version}" version] else []
  | none => []

/-- The Council-of-Europe entry of `complianceIssues`: a requirement with a
truthy (nonempty) version not yet acknowledged, parameterized by it. -/
def coeIssueEntries (tm : TrustMessages) (tc : TrustCompliance) : List String :=
  match tc.councilOfEurope.requirementVersion with
  | some version =>
      if version ≠ "" && !tc.councilOfEurope.acknowledged then
        [tm.complianceCoePending.replace "{version}" version]
      else []
  | none => []

/-- `complianceIssues` of `research-view.tsx`: the derived issue lines, in
the source's fixed order, empty when `trustCompliance` is absent. -/
def complianceIssues (tm : TrustMessages) (cm : ComplianceMessages)
    (trustCompliance : Option TrustCompliance) : List String :=
  match trustCompliance with
  | none => []
  | some tc =>
      friaIssueEntries tm tc ++ cepejIssueEntries tm cm tc ++
        consentIssueEntries tm tc ++ coeIssueEntries tm tc

/-- The three mutually distinct renderings of the compliance section of the
trust panel card. -/
inductive ComplianceDisplay where
  | unavailable
  | resolved
  | issueList (issues : List String)
deriving Repr, DecidableEq

/-- The compliance section of the trust panel card in `ResearchView`:
absence of `trustCompliance` renders the dedicated unavailable message;
with it present, an empty issues list renders the resolved message and a
nonempty one renders the issue list. -/
def complianceSection (tm : TrustMessages) (cm : ComplianceMessages)
    (trustCompliance : Option TrustCompliance) : ComplianceDisplay :=
  match trustCompliance with
  | none => ComplianceDisplay.unavailable
  | some tc =>
      let issues := complianceIssues tm cm (some tc)
      if issues = [] then ComplianceDisplay.resolved
      else ComplianceDisplay.issueList issues

/-- A rule of the IRAC payload. -/
structure IracRule where
  citation : String
  source_url : String
  binding : Bool
  effective_date : String
deriving Repr, DecidableEq

/-- The risk level of the IRAC payload (`LOW | MEDIUM | HIGH`). -/
inductive RiskLevel where
  | LOW
  | MEDIUM
  | HIGH
deriving Repr, DecidableEq

/-- The string form of a risk level, as interpolated into export text. -/
def RiskLevel.text : RiskLevel → String
  | RiskLevel.LOW => "LOW"
  | RiskLevel.MEDIUM => "MEDIUM"
  | RiskLevel.HIGH => "HIGH"

/-- `payload.risk`. -/
structure IracRisk where
  level : RiskLevel
  why : String
  hitl_required : Bool
deriving Repr, DecidableEq

/-- The IRAC payload fields the export layer renders. -/
structure IracPayload where
  jurisdictionCountry : String
  issue : String
  rules : List IracRule
  application : String
  conclusion : String
  risk : IracRisk
deriving Repr, DecidableEq

/-- `formatRules` of the export module: numbered citation/source/date
blocks joined by blank lines. -/
def formatRules (p : IracPayload) : String :=
  String.intercalate "\n\n"
    (p.rules.enum.map
      (fun pr =>
        toString (pr.1 + 1) ++ ". " ++ pr.2.citation ++ "\n" ++ pr.2.source_url ++
          "\n" ++ pr.2.effective_date))

/-- The signature metadata returned by the signing service
(`C2PASignature`, manifest omitted; `signedAt` kept as the raw string the
source passes through locale formatting). -/
structure C2PASignature where
  signature : String
  keyId : String
  algorithm : String
  signedAt : String
  statementId : String
deriving Repr, DecidableEq

/-- `formatProofMetadata` of the export module: the two signature block
lines (the source truncates the signature to 32 characters and formats
`signedAt` with `toLocaleString`, kept raw here). -/
def formatProofMetadata (proof : C2PASignature) : List String :=
  ["Signature " ++ proof.algorithm ++ "/" ++ proof.keyId ++ " — " ++
      proof.signature.take 32 ++ "…",
   "Statement " ++ proof.statementId ++ " — " ++ proof.signedAt]

/-- Resolution of the signing-service fetch inside `signExport`: an OK
response carrying the parsed signature, a non-OK response carrying the
body text, or a rejected fetch (network error) carrying the thrown
message. -/
inductive SignOutcome where
  | ok (sig : C2PASignature)
  | httpError (body : String)
  | thrown (msg : String)
deriving Repr, DecidableEq

/-- `signExport` of the export module: on a non-OK response it logs the
`export_sign_failed` warning and returns `null`; a rejected fetch
propagates as an exception (`Except.error`).  The returned list is the
console-warning log. -/
def signExport (outcome : SignOutcome) : Except String (Option C2PASignature × List String) :=
  match outcome with
  | SignOutcome.ok sig => Except.ok (some sig, [])
  | SignOutcome.httpError body => Except.ok (none, ["export_sign_failed " ++ body])
  | SignOutcome.thrown msg => Except.error msg

/-- The export locale (`'fr' | 'en'`). -/
inductive ExportLocale where
  | fr
  | en
deriving Repr, DecidableEq

/-- The section headers of the exports, per locale. -/
structure ExportHeaders where
  issue : String
  rules : String
  application : String
  conclusion : String
  risk : String
deriving Repr, DecidableEq

/-- The locale-dependent header table of the export module. -/
def exportHeaders : ExportLocale → ExportHeaders
  | ExportLocale.fr =>
      { issue := "Question", rules := "Règles", application := "Application",
        conclusion := "Conclusion", risk := "Risque" }
  | ExportLocale.en =>
      { issue := "Issue", rules := "Rules", application := "Application",
        conclusion := "Conclusion", risk := "Risk" }

/-- The risk section text of the PDF export
(level — why, plus the HITL line when required). -/
def riskText (p : IracPayload) : String :=
  p.risk.level.text ++ " — " ++ p.risk.why ++
    (if p.risk.hitl_required then "\nHITL requis" else "")

/-- The titled body sections the PDF export writes, in order. -/
def pdfSections (h : ExportHeaders) (p : IracPayload) : List (String × String) :=
  [(h.issue, p.issue), (h.rules, formatRules p), (h.application, p.application),
   (h.conclusion, p.conclusion), (h.risk, riskText p)]

/-- A produced (saved) export document: title, body sections, the optional
two-line signature block, and the download filename. -/
structure ExportedDoc where
  title : String
  sections : List (String × String)
  signatureBlock : Option (List String)
  filename : String
deriving Repr, DecidableEq

/-- `exportIracToPdf` of the export module: builds the sections, awaits
`signExport`, attaches the signature block only when a proof came back,
and saves the document.  A `signExport` exception propagates, so nothing
is saved (`Except.error`).  Also returns the console-warning log. -/
def exportIracToPdf (loc : ExportLocale) (p : IracPayload) (sign : SignOutcome) :
    Except String (ExportedDoc × List String) :=
  let h := exportHeaders loc
  match signExport sign with
  | Except.error e => Except.error e
  | Except.ok (proof, warnings) =>
      Except.ok
        ({ title := "Analyse IRAC — " ++ p.jurisdictionCountry,
           sections := pdfSections h p,
           signatureBlock := proof.map formatProofMetadata,
           filename := "analyse-irac-" ++ p.jurisdictionCountry.toLower ++ ".pdf" },
         warnings)

/-- `exportIracToDocx` of the export module: awaits `signExport` first,
then builds the document with the optional signature paragraphs and saves
it.  A `signExport` exception propagates, so nothing is saved. -/
def exportIracToDocx (loc : ExportLocale) (p : IracPayload) (sign : SignOutcome) :
    Except String (ExportedDoc × List String) :=
  let h := exportHeaders loc
  match signExport sign with
  | Except.error e => Except.error e
  | Except.ok (proof, warnings) =>
      Except.ok
        ({ title := "Analyse IRAC — " ++ p.jurisdictionCountry,
           sections :=
             [(h.issue, p.issue), (h.rules, formatRules p),
              (h.application, p.application), (h.conclusion, p.conclusion),
              (h.risk, p.risk.level.text ++ " — " ++ p.risk.why)],
           signatureBlock := proof.map formatProofMetadata,
           filename := "analyse-irac-" ++ p.jurisdictionCountry.toLower ++ ".docx" },
         warnings)

/-- Reads a nonempty all-digit character list as a natural number. -/
def digitsToNat : List Char → Option Nat
  | [] => none
  | l =>
      if l.all (fun c => c.isDigit) then
        some (l.foldl (fun acc c => acc * 10 + (c.toNat - 48)) 0)
      else none

/-- Days since 1970-01-01 of a proleptic-Gregorian civil date
(the standard days-from-civil computation, used to model the runtime's
`Date` arithmetic). -/
def daysFromCivil (y m d : Int) : Int :=
  let yy := y - (if m ≤ 2 then 1 else 0)
  let era := (if 0 ≤ yy then yy else yy - 399) / 400
  let yoe := yy - era * 400
  let mp := (m + 9) % 12
  let doy := (153 * mp + 2) / 5 + d - 1
  let doe := yoe * 365 + yoe / 4 - yoe / 100 + doy
  era * 146097 + doe - 719468

/-- Modelled from the spec: parsing of an ISO-ish date string through the
runtime's `Date` (the `lib/staleness` module is not under `src/`) — the
date part (before any `T`) must be three dash-separated numeric fields
forming a plausible `YYYY-MM-DD`; anything else is unparseable (`none`).
The result is the day count since the epoch. -/
def parseDateDays (s : String) : Option Int :=
  let datePart := (splitOnChar 'T' s.data).headD []
  match (splitOnChar '-' datePart).map digitsToNat with
  | [some y, some m, some d] =>
      if 1 ≤ m ∧ m ≤ 12 ∧ 1 ≤ d ∧ d ≤ 31 then
        some (daysFromCivil (Int.ofNat y) (Int.ofNat m) (Int.ofNat d))
      else none
  | _ => none

/-- Modelled from the spec: `isDateStale(dateString, {thresholdDays,
offline})` of `lib/staleness` (not under `src/`) — an unparseable date is
never stale (fail-open); a parsed date is stale when now minus the date
exceeds the threshold in days; the offline flag does not change the
computation, which runs against the last known wall clock (`nowDays`). -/
def isDateStale (dateString : String) (thresholdDays : Nat) (offline : Bool)
    (nowDays : Int) : Bool :=
  match parseDateDays dateString with
  | none => false
  | some d => nowDays - d > (thresholdDays : Int)

/-- Concrete localized messages used by closed evaluation theorems. -/
def sampleMsgs : UiMessages :=
  { validationMessage := "Veuillez saisir une question juridique.",
    outboxQueued := "Requête mise en file.",
    outboxStillOffline := "Toujours hors ligne.",
    successMessage := "Analyse prête",
    outboxSent := some "Requête envoyée." }

/-- Concrete offline component state used by closed evaluation theorems. -/
def sampleOfflineState : ViewState :=
  { question := "Quelle est la prescription applicable ?", context := "ctx",
    confidentialMode := false, agentCode := "conseil_recherche",
    selectedAgentLabel := some "Conseil recherche", online := false,
    outbox := [], nextId := 0, latestRun := none, planDrawerOpen := false }

/-- Concrete online component state used by closed evaluation theorems. -/
def sampleOnlineState : ViewState :=
  { question := "Quelle est la prescription applicable ?", context := "ctx",
    confidentialMode := false, agentCode := "conseil_recherche",
    selectedAgentLabel := some "Conseil recherche", online := true,
    outbox := [], nextId := 0, latestRun := none, planDrawerOpen := false }

/-- C9: the staleness evaluator returns `false` for every unparseable date
string (the empty string included), is `true` exactly when now minus the
parsed date exceeds the threshold in days — with a 90-day threshold a date
91 days before now is stale and one 10 days before is not — and, being a
plain function of its arguments, has no side effects. -/
theorem staleness_evaluator_contract :
    (∀ (s : String) (t : Nat) (off : Bool) (now : Int),
        parseDateDays s = none → isDateStale s t off now = false) ∧
    (∀ (t : Nat) (off : Bool) (now : Int), isDateStale "" t off now = false) ∧
    (∀ (s : String) (d : Int) (t : Nat) (off : Bool) (now : Int),
        parseDateDays s = some d →
          (isDateStale s t off now = true ↔ now - d > (t : Int))) ∧
    isDateStale "2026-07-12" 90 false (daysFromCivil 2026 10 11) = true ∧
    isDateStale "2026-10-01" 90 false (daysFromCivil 2026 10 11) = false := by
  refine ⟨?_, ?_, ?_, by decide, by decide⟩
  · intro s t off now h
    simp [isDateStale, h]
  · intro t off now
    have h : parseDateDays "" = none := by decide
    simp [isDateStale, h]
  · intro s d t off now h
    simp [isDateStale, h]

/-- C9 witness: an unparseable date string is reported not stale. -/
theorem staleness_evaluator_contract_witness :
    isDateStale "not a date" 90 false 20000 = false :=
  staleness_evaluator_contract.1 "not a date" 90 false 20000 (by decide)

/-- Concrete IRAC payload used by closed evaluation theorems. -/
def samplePayload : IracPayload :=
  { jurisdictionCountry := "FR",
    issue := "Quelle est la prescription applicable ?",
    rules := [{ citation := "Code civil, art. 2224", source_url := "https://legifrance.gouv.fr",
                binding := true, effective_date := "2008-06-19" }],
    application := "Application", conclusion := "Conclusion",
    risk := { level := RiskLevel.HIGH, why := "Délai incertain", hitl_required := true } }

/-- C8 counterexample: when the signing fetch rejects (a thrown network
error), both exports abort with that exception instead of completing
without a signature block — no document is produced. -/
theorem export_sign_thrown_aborts_export :
    exportIracToPdf ExportLocale.fr samplePayload (SignOutcome.thrown "NetworkError")
        = Except.error "NetworkError" ∧
      exportIracToDocx ExportLocale.fr samplePayload (SignOutcome.thrown "NetworkError")
        = Except.error "NetworkError" :=
  ⟨rfl, rfl⟩

/-- C8 amended: export signing is best-effort only for unsuccessful HTTP
responses — a non-OK signing response is logged as a warning and the
export (PDF or DOCX) still completes without a signature block, and an OK
response attaches the block — while a rejected signing fetch propagates
and the export fails with that error. -/
theorem export_signing_best_effort (loc : ExportLocale) (p : IracPayload)
    (body msg : String) (sig : C2PASignature) :
    exportIracToPdf loc p (SignOutcome.httpError body) =
        Except.ok
          ({ title := "Analyse IRAC — " ++ p.jurisdictionCountry,
             sections := pdfSections (exportHeaders loc) p,
             signatureBlock := none,
             filename := "analyse-irac-" ++ p.jurisdictionCountry.toLower ++ ".pdf" },
           ["export_sign_failed " ++ body]) ∧
      (exportIracToDocx loc p (SignOutcome.httpError body)).map
          (fun r => (r.1.signatureBlock, r.2))
        = Except.ok (none, ["export_sign_failed " ++ body]) ∧
      (exportIracToPdf loc p (SignOutcome.ok sig)).map (fun r => r.1.signatureBlock)
        = Except.ok (some (formatProofMetadata sig)) ∧
      exportIracToPdf loc p (SignOutcome.thrown msg) = Except.error msg ∧
      exportIracToDocx loc p (SignOutcome.thrown msg) = Except.error msg :=
  ⟨rfl, rfl, rfl, rfl, rfl⟩

/-- C1: an offline submission with a non-whitespace question enqueues the
request verbatim (stored question, context and agent code equal the
submitted values), grows the outbox by exactly one, clears both input
fields, attempts no network call, and raises no error notification. -/
theorem offline_submission_queues_verbatim (msgs : UiMessages) (st : ViewState)
    (oc : RemoteOutcome) (hq : jsTrim st.question ≠ "") (hoff : st.online = false) :
    (onSubmit msgs st oc).1.outbox =
        st.outbox ++
          [{ id := st.nextId, question := st.question, context := st.context,
             confidentialMode := st.confidentialMode, agentCode := st.agentCode,
             agentLabel := st.selectedAgentLabel.getD st.agentCode,
             agentSettings := none }] ∧
      (onSubmit msgs st oc).1.outbox.length = st.outbox.length + 1 ∧
      (onSubmit msgs st oc).1.question = "" ∧
      (onSubmit msgs st oc).1.context = "" ∧
      (onSubmit msgs st oc).2.filter Effect.isNetworkCall = [] ∧
      (onSubmit msgs st oc).2.filter Effect.isToastError = [] := by
  unfold onSubmit
  rw [if_neg hq, if_pos hoff]
  refine ⟨rfl, by simp [Outbox.enqueue], rfl, rfl, ?_, ?_⟩ <;>
    cases st.confidentialMode <;>
      simp [Effect.isNetworkCall, Effect.isToastError]

/-- C1 witness: a concrete offline submission grows the outbox from zero
to one item. -/
theorem offline_submission_queues_verbatim_witness :
    (onSubmit sampleMsgs sampleOfflineState (RemoteOutcome.failure none)).1.outbox.length
      = sampleOfflineState.outbox.length + 1 :=
  (offline_submission_queues_verbatim sampleMsgs sampleOfflineState
      (RemoteOutcome.failure none) (by decide) (by decide)).2.1

/-- C2: an online submission whose remote call fails enqueues the same
request into the outbox (same question, context, confidential mode and
agent code) and surfaces an error notification carrying the thrown
`Error`'s message, or the generic fallback when the thrown value is not
an `Error`. -/
theorem online_failure_queues_and_notifies (msgs : UiMessages) (st : ViewState)
    (err : Option String) (hq : jsTrim st.question ≠ "") (hon : st.online = true) :
    (onSubmit msgs st (RemoteOutcome.failure err)).1.outbox =
        st.outbox ++
          [{ id := st.nextId, question := st.question, context := st.context,
             confidentialMode := st.confidentialMode, agentCode := st.agentCode,
             agentLabel := st.selectedAgentLabel.getD st.agentCode,
             agentSettings := none }] ∧
      Effect.toastError (err.getD agentUnavailableFallback) ∈
        (onSubmit msgs st (RemoteOutcome.failure err)).2 := by
  unfold onSubmit
  rw [if_neg hq, if_neg (by simp [hon])]
  refine ⟨rfl, ?_⟩
  cases st.confidentialMode <;> simp

/-- C2 witness: a concrete failed online submission surfaces the generic
fallback message for a non-`Error` throw. -/
theorem online_failure_queues_and_notifies_witness :
    Effect.toastError "Agent indisponible" ∈
      (onSubmit sampleMsgs sampleOnlineState (RemoteOutcome.failure none)).2 :=
  (online_failure_queues_and_notifies sampleMsgs sampleOnlineState none
      (by decide) (by decide)).2

/-- C3: a confidential outbox item is never sent by the automatic flush
path — the sender returns `false` with no network call and no state
change, leaving the item in the queue — while a manual retry of the same
item does attempt the send. -/
theorem confidential_items_manual_only (msgs : UiMessages) (st : ViewState)
    (item : OutboxItem) (hconf : item.confidentialMode = true) :
    (∀ oc, processOutboxItem msgs st item RetrySource.auto oc = (st, ([], false))) ∧
      (∀ oc,
        Effect.networkCall item.question item.context item.confidentialMode item.agentCode
          ∈ (processOutboxItem msgs st item RetrySource.manual oc).2.1) := by
  constructor
  · intro oc
    unfold processOutboxItem
    rw [if_pos ⟨hconf, rfl⟩]
  · intro oc
    unfold processOutboxItem
    rw [if_neg (by simp)]
    cases oc <;> simp

/-- C3 witness: a concrete confidential item is skipped by the automatic
flush with no effects. -/
theorem confidential_items_manual_only_witness :
    processOutboxItem sampleMsgs sampleOnlineState
        { id := 7, question := "q", context := "c", confidentialMode := true,
          agentCode := "a", agentLabel := "A", agentSettings := none }
        RetrySource.auto (RemoteOutcome.failure none)
      = (sampleOnlineState, ([], false)) :=
  (confidential_items_manual_only sampleMsgs sampleOnlineState
      { id := 7, question := "q", context := "c", confidentialMode := true,
        agentCode := "a", agentLabel := "A", agentSettings := none } rfl).1
    (RemoteOutcome.failure none)

/-- C6: the latest-run display state is written only by a successful
submission or a successful outbox send, both of which store the received
response through the single `setLatestRun` write; every other path —
validation failure, offline queueing, remote-call failure, skipped or
failed outbox item — leaves it unchanged. -/
theorem latest_run_single_writer (msgs : UiMessages) (st : ViewState)
    (oc : RemoteOutcome) (item : OutboxItem) (source : RetrySource) :
    (onSubmit msgs st oc).1.latestRun =
        (if jsTrim st.question = "" then st.latestRun
         else if st.online = false then st.latestRun
         else
           match oc with
           | RemoteOutcome.success data => some data
           | RemoteOutcome.failure _ => st.latestRun) ∧
      (processOutboxItem msgs st item source oc).1.latestRun =
        (if item.confidentialMode = true ∧ source = RetrySource.auto then st.latestRun
         else
           match oc with
           | RemoteOutcome.success data => some data
           | RemoteOutcome.failure _ => st.latestRun) := by
  constructor
  · unfold onSubmit
    split_ifs <;> cases oc <;> rfl
  · unfold processOutboxItem
    split_ifs <;> cases oc <;> rfl

/-- C10: the question and context inputs are cleared only on the offline
queueing path; a validation failure and both online outcomes (success and
remote failure) leave the submitted values in place. -/
theorem inputs_cleared_only_offline (msgs : UiMessages) (st : ViewState)
    (oc : RemoteOutcome) :
    ((onSubmit msgs st oc).1.question, (onSubmit msgs st oc).1.context) =
      (if jsTrim st.question = "" then (st.question, st.context)
       else if st.online = false then ("", "")
       else (st.question, st.context)) := by
  unfold onSubmit
  split_ifs <;> cases oc <;> rfl

/-- C7: a confidential request emits no telemetry anywhere in its
lifecycle — not at submission (offline queueing, success or failure
included), and not when the confidential item is later processed from the
outbox, whatever the source, the outcome or the component state at that
time. -/
theorem confidential_suppresses_telemetry (msgs msgs' : UiMessages)
    (st st' : ViewState) (oc oc' : RemoteOutcome) (item : OutboxItem)
    (source : RetrySource) (hconf : st.confidentialMode = true)
    (hitem : item.confidentialMode = true) :
    (onSubmit msgs st oc).2.filter Effect.isTelemetry = [] ∧
      (processOutboxItem msgs' st' item source oc').2.1.filter Effect.isTelemetry = [] := by
  constructor
  · unfold onSubmit
    split_ifs <;> cases oc <;>
      simp [hconf, Effect.isTelemetry]
  · unfold processOutboxItem
    split_ifs <;> cases oc' <;> simp_all [Effect.isTelemetry]

/-- C7 witness: a concrete confidential submission produces no telemetry
effect. -/
theorem confidential_suppresses_telemetry_witness :
    (onSubmit sampleMsgs
        { sampleOnlineState with confidentialMode := true }
        (RemoteOutcome.success { runId := "r1", agentCode := "conseil_recherche" })).2.filter
        Effect.isTelemetry = [] :=
  (confidential_suppresses_telemetry sampleMsgs sampleMsgs
      { sampleOnlineState with confidentialMode := true } sampleOnlineState
      (RemoteOutcome.success { runId := "r1", agentCode := "conseil_recherche" })
      (RemoteOutcome.failure none)
      { id := 7, question := "q", context := "c", confidentialMode := true,
        agentCode := "a", agentLabel := "A", agentSettings := none }
      RetrySource.manual rfl rfl).1

/-- A hostname extracted by the modelled URL parser is never empty. -/
theorem hostnameOf_ne_empty {u h : String} (hh : hostnameOf u = some h) : h ≠ "" := by
  unfold hostnameOf at hh
  split at hh
  · exact absurd hh (by simp)
  · dsimp only at hh
    split_ifs at hh with hs hhost
    obtain rfl : String.mk _ = h := Option.some.inj hh
    intro hemp
    exact hhost (congrArg String.data hemp)

/-- Membership is preserved by first-occurrence deduplication. -/
theorem mem_dedupFirst {x : String} : ∀ {l : List String}, x ∈ dedupFirst l ↔ x ∈ l := by
  intro l
  induction l with
  | nil => simp [dedupFirst]
  | cons a xs ih =>
      by_cases hx : x = a <;>
        simp [dedupFirst, List.mem_filter, ih, hx]

/-- First-occurrence deduplication yields a duplicate-free list. -/
theorem nodup_dedupFirst : ∀ l : List String, (dedupFirst l).Nodup := by
  intro l
  induction l with
  | nil => simp [dedupFirst]
  | cons a xs ih =>
      refine List.nodup_cons.mpr ⟨?_, ih.filter _⟩
      simp [List.mem_filter]

/-- C4: the allowlist summary is clean exactly when the non-allowlisted
set is empty — the citation summary's list when the trust panel provides
one, else the flat verification violations list — and the fallback detail
list maps each violation URL to its hostname when the URL parses and
passes the raw string through when it does not, with duplicates removed. -/
theorem allowlist_clean_contract :
    (∀ (s : CitationSummary) (viols : List String),
        allowlistClean (some s) viols = true ↔ s.nonAllowlisted = []) ∧
      (∀ viols : List String, allowlistClean none viols = true ↔ viols = []) ∧
      (∀ viols : List String, (fallbackViolationHosts viols).Nodup) ∧
      (∀ (viols : List String) (u h : String), u ∈ viols → hostnameOf u = some h →
          h ∈ fallbackViolationHosts viols) ∧
      (∀ (viols : List String) (u : String), u ∈ viols → hostnameOf u = none → u ≠ "" →
          u ∈ fallbackViolationHosts viols) ∧
      (∀ viols : List String, allowlistDetails none viols = fallbackViolationHosts viols) := by
  refine ⟨?_, ?_, ?_, ?_, ?_, fun _ => rfl⟩
  · intro s viols
    simp [allowlistClean, List.length_eq_zero]
  · intro viols
    simp [allowlistClean, List.length_eq_zero]
  · intro viols
    unfold fallbackViolationHosts
    split_ifs with h
    · simp
    · exact nodup_dedupFirst _
  · intro viols u h hmem hh
    unfold fallbackViolationHosts
    rw [if_neg (List.ne_nil_of_mem hmem)]
    rw [mem_dedupFirst, List.mem_filter]
    refine ⟨List.mem_map.mpr ⟨u, hmem, ?_⟩, by simpa using hostnameOf_ne_empty hh⟩
    simp [hostOrRaw, hh]
  · intro viols u hmem hh hne
    unfold fallbackViolationHosts
    rw [if_neg (List.ne_nil_of_mem hmem)]
    rw [mem_dedupFirst, List.mem_filter]
    refine ⟨List.mem_map.mpr ⟨u, hmem, ?_⟩, by simpa using hne⟩
    simp [hostOrRaw, hh]

/-- C4 witness: concrete violations — a well-formed URL contributes its
hostname and a malformed one passes through raw. -/
theorem allowlist_clean_contract_witness :
    "example.com" ∈ fallbackViolationHosts ["https://example.com/doc", "not a url"] ∧
      "not a url" ∈ fallbackViolationHosts ["https://example.com/doc", "not a url"] :=
  ⟨allowlist_clean_contract.2.2.2.1 ["https://example.com/doc", "not a url"]
      "https://example.com/doc" "example.com" (by decide) (by decide),
   allowlist_clean_contract.2.2.2.2.1 ["https://example.com/doc", "not a url"]
      "not a url" (by decide) (by decide) (by decide)⟩

/-- The FRIA entry appears exactly when FRIA is required but not
validated, built from the first listed reason or the fallback. -/
theorem friaIssueEntries_eq (tm : TrustMessages) (tc : TrustCompliance) :
    friaIssueEntries tm tc =
      (if tc.friaRequired = true ∧ tc.friaValidated = false then
          [tm.complianceFria.replace "{reason}"
            (tc.friaReasons.headD tm.complianceFriaFallback)]
        else []) := by
  cases hr : tc.friaRequired <;> cases hv : tc.friaValidated <;>
    simp [friaIssueEntries, hr, hv]

/-- The CEPEJ entry appears exactly when CEPEJ did not pass, with the
translated violation codes joined, or the fallback when none are listed. -/
theorem cepejIssueEntries_eq (tm : TrustMessages) (cm : ComplianceMessages)
    (tc : TrustCompliance) :
    cepejIssueEntries tm cm tc =
      (if tc.cepejPassed = false then
          [tm.complianceCepej.replace "{detail}"
            (if tc.cepejViolations = [] then tm.complianceCepejFallback
             else
               String.intercalate " • "
                 (tc.cepejViolations.map
                   (fun code =>
                     (cm.cepejViolationLabel code).getD tm.complianceCepejFallback)))]
        else []) := by
  cases hp : tc.cepejPassed <;> cases hv : tc.cepejViolations <;>
    simp [cepejIssueEntries, hp, hv]

/-- The consent entry appears exactly when a consent requirement is
present and not accepted, parameterized by the requirement's version. -/
theorem consentIssueEntries_eq (tm : TrustMessages) (tc : TrustCompliance) :
    consentIssueEntries tm tc =
      (match tc.consent.requirementVersion, tc.consent.accepted with
       | some version, false => [tm.complianceConsentPending.replace "{version}" version]
       | _, _ => []) := by
  cases hv : tc.consent.requirementVersion <;> cases ha : tc.consent.accepted <;>
    simp [consentIssueEntries, hv, ha]

/-- The Council-of-Europe entry appears exactly when a requirement carries
a truthy (nonempty) version that is not acknowledged, parameterized by it. -/
theorem coeIssueEntries_eq (tm : TrustMessages) (tc : TrustCompliance) :
    coeIssueEntries tm tc =
      (match tc.councilOfEurope.requirementVersion, tc.councilOfEurope.acknowledged with
       | some version, false =>
           if version = "" then [] else [tm.complianceCoePending.replace "{version}" version]
       | _, _ => []) := by
  cases hv : tc.councilOfEurope.requirementVersion <;>
    cases ha : tc.councilOfEurope.acknowledged <;>
      simp [coeIssueEntries, hv, ha]

/-- C5: the compliance-issue derivation emits, in this fixed order, the
FRIA-required-but-not-validated entry (first listed reason or fallback),
the CEPEJ-not-passed entry (translated violation codes joined, or
fallback), the consent-pending entry and the Council-of-Europe-pending
entry, each parameterized by its version; an absent `trustCompliance`
yields an empty issues list and renders the distinct unavailable status,
which no present `trustCompliance` ever produces and which differs from
the empty-success resolved status. -/
theorem compliance_issues_contract (tm : TrustMessages) (cm : ComplianceMessages)
    (tc : TrustCompliance) :
    complianceIssues tm cm (some tc) =
        (if tc.friaRequired = true ∧ tc.friaValidated = false then
            [tm.complianceFria.replace "{reason}"
              (tc.friaReasons.headD tm.complianceFriaFallback)]
          else []) ++
        (if tc.cepejPassed = false then
            [tm.complianceCepej.replace "{detail}"
              (if tc.cepejViolations = [] then tm.complianceCepejFallback
               else
                 String.intercalate " • "
                   (tc.cepejViolations.map
                     (fun code =>
                       (cm.cepejViolationLabel code).getD tm.complianceCepejFallback)))]
          else []) ++
        (match tc.consent.requirementVersion, tc.consent.accepted with
         | some version, false => [tm.complianceConsentPending.replace "{version}" version]
         | _, _ => []) ++
        (match tc.councilOfEurope.requirementVersion, tc.councilOfEurope.acknowledged with
         | some version, false =>
             if version = "" then []
             else [tm.complianceCoePending.replace "{version}" version]
         | _, _ => []) ∧
      complianceIssues tm cm none = [] ∧
      complianceSection tm cm none = ComplianceDisplay.unavailable ∧
      (∀ tc2 : TrustCompliance,
        complianceSection tm cm (some tc2) ≠ ComplianceDisplay.unavailable) ∧
      ComplianceDisplay.unavailable ≠ ComplianceDisplay.resolved := by
  refine ⟨?_, rfl, rfl, ?_, by simp⟩
  · rw [show complianceIssues tm cm (some tc) =
        friaIssueEntries tm tc ++ cepejIssueEntries tm cm tc ++
          consentIssueEntries tm tc ++ coeIssueEntries tm tc from rfl,
      friaIssueEntries_eq, cepejIssueEntries_eq, consentIssueEntries_eq,
      coeIssueEntries_eq]
  · intro tc2
    unfold complianceSection
    dsimp only
    split_ifs <;> simp

/-- C5 witness: with a concrete present `trustCompliance` whose checks all
pass, the section is resolved, not unavailable. -/
theorem compliance_issues_contract_witness :
    complianceSection
        { complianceFria := "FRIA: {reason}", complianceFriaFallback := "FRIA requise",
          complianceCepej := "CEPEJ: {detail}", complianceCepejFallback := "Charte CEPEJ",
          complianceConsentPending := "Consentement {version}",
          complianceCoePending := "Conseil de l'Europe {version}" }
        { cepejViolationLabel := fun _ => none }
        (some { friaRequired := false, friaValidated := false, friaReasons := [],
                cepejPassed := true, cepejViolations := [],
                consent := { requirementVersion := none, accepted := false },
                councilOfEurope := { requirementVersion := none, acknowledged := false } })
      ≠ ComplianceDisplay.unavailable :=
  (compliance_issues_contract
      { complianceFria := "FRIA: {reason}", complianceFriaFallback := "FRIA requise",
        complianceCepej := "CEPEJ: {detail}", complianceCepejFallback := "Charte CEPEJ",
        complianceConsentPending := "Consentement {version}",
        complianceCoePending := "Conseil de l'Europe {version}" }
      { cepejViolationLabel := fun _ => none }
      { friaRequired := false, friaValidated := false, friaReasons := [],
        cepejPassed := true, cepejViolations := [],
        consent := { requirementVersion := none, accepted := false },
        councilOfEurope := { requirementVersion := none, acknowledged := false } }).2.2.2.1
    { friaRequired := false, friaValidated := false, friaReasons := [],
      cepejPassed := true, cepejViolations := [],
      consent := { requirementVersion := none, accepted := false },
      councilOfEurope := { requirementVersion := none, acknowledged := false } }
